import Mathlib

/-!
Shallow embedding of the multi-user to-do application (Flask MVC).

The data model mirrors `models/user.py` (User, TaskOwner) and the Task
model described in the spec; the operations mirror
`controllers/task_controller.py` and `controllers/auth_controller.py`.
The database is modelled as explicit lists of rows; each controller
action takes the state and returns the new state together with its
outcome. Machine-independent types: ids and timestamps are `Nat`,
strings are Lean `String` compared by their code-point sequences
(matching byte order of UTF-8 for the comparisons used here).
-/

namespace TodoMVC

/-- Naive timestamp as parsed by `datetime.strptime` with format `%Y-%m-%dT%H:%M`:
year, month, day, hour, minute, no timezone. -/
structure DateTime where
  year : Nat
  month : Nat
  day : Nat
  hour : Nat
  minute : Nat
deriving DecidableEq, Repr

/-- Chronological key of a timestamp. On calendar-valid field values
(month ≤ 12, day ≤ 31, hour ≤ 23, minute ≤ 59) it is injective and its
order agrees with Python `datetime` comparison. -/
def DateTime.key (d : DateTime) : Nat :=
  (((d.year * 16 + d.month) * 32 + d.day) * 32 + d.hour) * 64 + d.minute

/-- Python `str.strip()`: drop leading and trailing whitespace. -/
def py_strip (s : String) : String :=
  String.mk (((s.data.dropWhile Char.isWhitespace).reverse.dropWhile Char.isWhitespace).reverse)

/-- Python `str.lower()`: lowercase every character. -/
def py_lower (s : String) : String :=
  String.mk (s.data.map Char.toLower)

/-- Row of the `users` table (`models/user.py`): unique id, unique
username, unique email, salted password hash. -/
structure User where
  id : Nat
  username : String
  email : String
  password_hash : String
deriving DecidableEq, Repr

/-- Row of the `task_owners` table (`models/user.py`): associates a task
to its single owning user; `task_id` carries a unique constraint. -/
structure TaskOwner where
  id : Nat
  user_id : Nat
  task_id : Nat
deriving DecidableEq, Repr

/-- Row of the `tasks` table. Modelled from the spec: the Task model file
(`models/task.py`) is not among the provided sources; its columns are the
ones the controllers read and write and the spec lists in its data model:
id, title, optional description, optional due date, completed flag,
creation timestamp. -/
structure Task where
  id : Nat
  title : String
  description : Option String
  due_date : Option DateTime
  completed : Bool
  created_at : Nat
deriving DecidableEq, Repr

/-- Modelled from the spec: `Task.mark_completed`, an idempotent setter of
the completed flag defined in the missing `models/task.py`. -/
def Task.mark_completed (t : Task) : Task :=
  { t with completed := true }

/-- Modelled from the spec: `Task.mark_pending`, an idempotent setter of
the completed flag defined in the missing `models/task.py`. -/
def Task.mark_pending (t : Task) : Task :=
  { t with completed := false }

/-- The relational store: the three tables of the application. -/
structure DB where
  users : List User
  tasks : List Task
  owners : List TaskOwner
deriving DecidableEq, Repr

/-- Autoincrement id for a new user row. -/
def next_user_id (db : DB) : Nat :=
  (db.users.map User.id).foldr max 0 + 1

/-- Autoincrement id for a new task row. -/
def next_task_id (db : DB) : Nat :=
  (db.tasks.map Task.id).foldr max 0 + 1

/-- Autoincrement id for a new ownership row. -/
def next_owner_id (db : DB) : Nat :=
  (db.owners.map TaskOwner.id).foldr max 0 + 1

/-- The form fields read by the registration handler. -/
structure RegisterForm where
  username : String
  email : String
  password : String
  confirm_password : String
deriving DecidableEq, Repr

/-- Outcome of the registration handler, one constructor per flash-and-
re-render branch plus success. -/
inductive RegisterOutcome
  | fieldsRequired
  | passwordMismatch
  | passwordTooShort
  | duplicateUsername
  | duplicateEmail
  | registered (user_id : Nat)
deriving DecidableEq, Repr

/-- POST branch of `register` in `controllers/auth_controller.py`:
username is stripped, email stripped and lowercased, password taken
verbatim; the checks run in source order and the user row is inserted
only when all pass. `hash` stands for `generate_password_hash`. -/
def register (db : DB) (hash : String → String) (f : RegisterForm) : DB × RegisterOutcome :=
  let username := py_strip f.username
  let email := py_lower (py_strip f.email)
  let password := f.password
  let confirm_password := f.confirm_password
  if username = "" ∨ email = "" ∨ password = "" then
    (db, .fieldsRequired)
  else if password ≠ confirm_password then
    (db, .passwordMismatch)
  else if password.length < 6 then
    (db, .passwordTooShort)
  else if db.users.any (fun u => u.username == username) then
    (db, .duplicateUsername)
  else if db.users.any (fun u => u.email == email) then
    (db, .duplicateEmail)
  else
    let u : User :=
      { id := next_user_id db, username := username, email := email,
        password_hash := hash password }
    ({ db with users := db.users ++ [u] }, .registered u.id)

/-- The `_user_tasks_query` helper of `controllers/task_controller.py`:
tasks joined with `task_owners` on `task_id = Task.id` and filtered on
the id of the acting user. The unique constraint on `task_owners.task_id`
makes the join equivalent to this existence filter. -/
def user_tasks_query (db : DB) (uid : Nat) : List Task :=
  db.tasks.filter (fun t => db.owners.any (fun o => o.task_id == t.id && o.user_id == uid))

/-- The `_get_user_task` helper: first row of the ownership-scoped query
with the given task id; `none` stands for the 404 of `first_or_404`. -/
def get_user_task (db : DB) (uid : Nat) (task_id : Nat) : Option Task :=
  (user_tasks_query db uid).find? (fun t => t.id == task_id)

/-- Coercion of the `filter` query parameter in `task_list`: values
outside the allowed set fall back to `all`. -/
def coerce_filter (s : String) : String :=
  if s = "all" ∨ s = "pending" ∨ s = "completed" ∨ s = "overdue" then s else "all"

/-- Coercion of the `sort` query parameter in `task_list`: values outside
the allowed set fall back to `created`. -/
def coerce_sort (s : String) : String :=
  if s = "created" ∨ s = "date" ∨ s = "title" then s else "created"

/-- The `overdue` filter condition of `task_list`: not completed, due
date present, due date strictly before the current instant. -/
def overdue_pred (now : DateTime) (t : Task) : Bool :=
  t.completed == false && t.due_date.isSome &&
    (match t.due_date with
     | some d => decide (d.key < now.key)
     | none => false)

/-- The filter stage of `task_list`, after coercion of the parameter. -/
def apply_filter (now : DateTime) (filter_type : String) (ts : List Task) : List Task :=
  if filter_type = "pending" then ts.filter (fun t => t.completed == false)
  else if filter_type = "completed" then ts.filter (fun t => t.completed == true)
  else if filter_type = "overdue" then ts.filter (overdue_pred now)
  else ts

/-- Comparison used by `order_by(Task.title.asc())`: ascending lexical
order on the character sequence of the title. -/
def title_le (a b : Task) : Prop :=
  a.title.data ≤ b.title.data

instance : DecidableRel title_le :=
  fun a b => inferInstanceAs (Decidable (a.title.data ≤ b.title.data))

/-- First sort key of the `date` ordering: the SQL
`case((Task.due_date.is_(None), 1), else_=0)` expression. -/
def date_null_flag (t : Task) : Nat :=
  match t.due_date with
  | none => 1
  | some _ => 0

/-- Second sort key of the `date` ordering: the due date itself
(arbitrary for rows without one, whose first key already orders them
last). -/
def date_key (t : Task) : Nat :=
  match t.due_date with
  | none => 0
  | some d => d.key

/-- Comparison realised by `order_by(case(...), Task.due_date.asc())`:
lexicographic on (null flag, due date). -/
def date_le (a b : Task) : Prop :=
  date_null_flag a < date_null_flag b ∨
    (date_null_flag a = date_null_flag b ∧ date_key a ≤ date_key b)

instance : DecidableRel date_le :=
  fun a b =>
    inferInstanceAs (Decidable (date_null_flag a < date_null_flag b ∨
      (date_null_flag a = date_null_flag b ∧ date_key a ≤ date_key b)))

/-- Comparison realised by `order_by(Task.created_at.desc())`: newest
first. -/
def created_desc_le (a b : Task) : Prop :=
  b.created_at ≤ a.created_at

instance : DecidableRel created_desc_le :=
  fun a b => inferInstanceAs (Decidable (b.created_at ≤ a.created_at))

/-- The ordering stage of `task_list`, after coercion of the parameter:
`title` ascending, `date` with null dues last, default descending by
creation time. A sort realising the `ORDER BY` keys; ties between equal
keys are unspecified in SQL and arbitrary here. -/
def apply_sort (sort_by : String) (ts : List Task) : List Task :=
  if sort_by = "title" then List.insertionSort title_le ts
  else if sort_by = "date" then List.insertionSort date_le ts
  else List.insertionSort created_desc_le ts

/-- The context dictionary `task_list` passes to its template. -/
structure TaskListContext where
  tasks : List Task
  filter_type : String
  sort_by : String
  total_tasks : Nat
  pending_count : Nat
  completed_count : Nat
deriving DecidableEq, Repr

/-- The `task_list` view: coerce both parameters, filter and order the
ownership-scoped query, and compute the three counts over the full
ownership-scoped set, ignoring the active filter. `now` is the value of
`datetime.utcnow()` at query time. -/
def task_list (db : DB) (uid : Nat) (now : DateTime) (filter_arg sort_arg : String) :
    TaskListContext :=
  let filter_type := coerce_filter filter_arg
  let sort_by := coerce_sort sort_arg
  let filtered := apply_filter now filter_type (user_tasks_query db uid)
  { tasks := apply_sort sort_by filtered
    filter_type := filter_type
    sort_by := sort_by
    total_tasks := (user_tasks_query db uid).length
    pending_count := ((user_tasks_query db uid).filter (fun t => t.completed == false)).length
    completed_count := ((user_tasks_query db uid).filter (fun t => t.completed == true)).length }

/-- The form fields read by `task_create` and `task_edit`; the
`completed` checkbox is absent from the form data when unchecked, hence
an `Option`. -/
structure TaskForm where
  title : String
  description : String
  due_date : String
  completed : Option String
deriving DecidableEq, Repr

/-- Validation failures of the task form, one per flash branch. -/
inductive TaskFormError
  | titleRequired
  | titleTooLong
  | descriptionTooLong
  | dueDateFormat
deriving DecidableEq, Repr

/-- The values a successful validation stores into the task row. -/
structure ParsedTaskForm where
  title : String
  description : Option String
  due_date : Option DateTime
  completed : Bool
deriving DecidableEq, Repr

/-- Gregorian leap-year rule, as used by Python `datetime`. -/
def is_leap (y : Nat) : Bool :=
  (y % 4 == 0 && y % 100 != 0) || y % 400 == 0

/-- Days in a month, as validated by the Python `datetime` constructor. -/
def days_in_month (y m : Nat) : Nat :=
  if m == 2 then (if is_leap y then 29 else 28)
  else if m == 4 || m == 6 || m == 9 || m == 11 then 30
  else 31

/-- Split a character list on a separator, keeping empty segments, as
`str.split(sep)` does. -/
def split_on_char (sep : Char) : List Char → List (List Char)
  | [] => [[]]
  | c :: cs =>
    match split_on_char sep cs with
    | [] => if c = sep then [[], [c]] else [[c]]
    | r :: rs => if c = sep then [] :: r :: rs else (c :: r) :: rs

/-- Read one numeric field of a strptime directive: between `min_len`
and `max_len` digits whose value lies in `[lo, hi]`. -/
def parse_nat_field (cs : List Char) (min_len max_len lo hi : Nat) : Option Nat :=
  if cs.length < min_len ∨ max_len < cs.length ∨ ¬ (cs.all Char.isDigit) then none
  else
    let v := cs.foldl (fun acc c => acc * 10 + (c.toNat - 48)) 0
    if lo ≤ v ∧ v ≤ hi then some v else none

/-- `datetime.strptime` with format `%Y-%m-%dT%H:%M` of the Python standard
library: `%Y` is exactly four digits with year ≥ 1, `%m`, `%d`, `%H`,
`%M` are one or two digits within their calendar ranges, the separators
are literal, the whole string must be consumed, and the resulting date
must exist in the calendar. Returns `none` where Python raises
`ValueError`. -/
def strptime_date_time (s : String) : Option DateTime :=
  match split_on_char 'T' s.data with
  | [date_part, time_part] =>
    match split_on_char '-' date_part, split_on_char ':' time_part with
    | [ys, ms, ds], [hs, mins] =>
      match parse_nat_field ys 4 4 1 9999, parse_nat_field ms 1 2 1 12,
            parse_nat_field ds 1 2 1 31, parse_nat_field hs 1 2 0 23,
            parse_nat_field mins 1 2 0 59 with
      | some y, some mo, some d, some h, some mi =>
        if d ≤ days_in_month y mo then some ⟨y, mo, d, h, mi⟩ else none
      | _, _, _, _, _ => none
    | _, _ => none
  | _ => none

/-- The shared validation sequence of `task_create` and `task_edit`:
strip the three text fields, then check title presence, title length,
description length, and due-date format in that order, the first failure
short-circuiting the rest; a blank description or due date is stored as
absent, and the completed flag is the test that the submitted checkbox value equals `on`. -/
def validate_task_form (f : TaskForm) : Except TaskFormError ParsedTaskForm :=
  let title := py_strip f.title
  let description := py_strip f.description
  let due_date_raw := py_strip f.due_date
  if title = "" then .error .titleRequired
  else if title.length > 200 then .error .titleTooLong
  else if description.length > 1000 then .error .descriptionTooLong
  else if due_date_raw = "" then
    .ok { title := title
          description := if description = "" then none else some description
          due_date := none
          completed := f.completed == some "on" }
  else
    match strptime_date_time due_date_raw with
    | none => .error .dueDateFormat
    | some d =>
      .ok { title := title
            description := if description = "" then none else some description
            due_date := some d
            completed := f.completed == some "on" }

/-- Outcome of the `task_create` POST handler. -/
inductive CreateOutcome
  | validationError (e : TaskFormError)
  | created (task_id : Nat)
deriving DecidableEq, Repr

/-- POST branch of `task_create`: validate, then in a single transaction
insert the task row and its ownership link to the acting user
(`db.session.add(task); db.session.flush(); db.session.add(TaskOwner(...));
db.session.commit()`). On a validation failure nothing is persisted.
`created_ts` is the creation timestamp the store assigns. -/
def task_create (db : DB) (uid : Nat) (created_ts : Nat) (f : TaskForm) :
    DB × CreateOutcome :=
  match validate_task_form f with
  | .error e => (db, .validationError e)
  | .ok p =>
    let tid := next_task_id db
    let task : Task :=
      { id := tid, title := p.title, description := p.description,
        due_date := p.due_date, completed := p.completed, created_at := created_ts }
    ({ db with
        tasks := db.tasks ++ [task]
        owners := db.owners ++ [{ id := next_owner_id db, user_id := uid, task_id := tid }] },
     .created tid)

/-- Outcome of an ownership-scoped read (`_get_user_task` behind a GET). -/
inductive GetOutcome
  | notFound
  | found (t : Task)
deriving DecidableEq, Repr

/-- GET branch of `task_edit`: fetch through the ownership-scoped query,
404 when absent. -/
def task_edit_get (db : DB) (uid : Nat) (task_id : Nat) : GetOutcome :=
  match get_user_task db uid task_id with
  | none => .notFound
  | some t => .found t

/-- The `task_detail` view redirects to `task_edit`; the outcome a client
observes after following the redirect is the GET outcome of the edit view. -/
def task_detail (db : DB) (uid : Nat) (task_id : Nat) : GetOutcome :=
  task_edit_get db uid task_id

/-- Outcome of the `task_edit` POST handler. -/
inductive EditOutcome
  | notFound
  | validationError (e : TaskFormError)
  | updated
deriving DecidableEq, Repr

/-- POST branch of `task_edit`: fetch through the ownership-scoped query
(404 when absent), validate, then overwrite title, description, due date
and completed flag of the row with the submitted values. -/
def task_edit (db : DB) (uid : Nat) (task_id : Nat) (f : TaskForm) :
    DB × EditOutcome :=
  match get_user_task db uid task_id with
  | none => (db, .notFound)
  | some task =>
    match validate_task_form f with
    | .error e => (db, .validationError e)
    | .ok p =>
      let task2 : Task :=
        { task with title := p.title, description := p.description,
                    due_date := p.due_date, completed := p.completed }
      ({ db with tasks := db.tasks.map (fun t => if t.id == task_id then task2 else t) },
       .updated)

/-- Outcome of the `task_delete` POST handler. -/
inductive DeleteOutcome
  | notFound
  | deleted
deriving DecidableEq, Repr

/-- The `task_delete` view: fetch through the ownership-scoped query (404
when absent), then delete. The success branch is modelled from the spec:
`Task.delete` lives in the missing `models/task.py` and removes the task
row together with its ownership link. -/
def task_delete (db : DB) (uid : Nat) (task_id : Nat) : DB × DeleteOutcome :=
  match get_user_task db uid task_id with
  | none => (db, .notFound)
  | some _ =>
    ({ db with
        tasks := db.tasks.filter (fun t => !(t.id == task_id))
        owners := db.owners.filter (fun o => !(o.task_id == task_id)) },
     .deleted)

/-- Outcome of the `task_toggle` POST handler. -/
inductive ToggleOutcome
  | notFound
  | toggled
deriving DecidableEq, Repr

/-- The `task_toggle` view: fetch through the ownership-scoped query (404
when absent); a completed task is marked pending and a pending one
completed, then the row is committed. -/
def task_toggle (db : DB) (uid : Nat) (task_id : Nat) : DB × ToggleOutcome :=
  match get_user_task db uid task_id with
  | none => (db, .notFound)
  | some task =>
    let task2 := if task.completed then task.mark_pending else task.mark_completed
    ({ db with tasks := db.tasks.map (fun t => if t.id == task_id then task2 else t) },
     .toggled)

/-- A routing-table entry: the URL pattern and whether the source puts a
`@login_required` decorator on its view. -/
structure RouteEntry where
  pattern : String
  has_login_required : Bool
deriving DecidableEq, Repr

/-- The routes the interface table marks as requiring authentication,
with the decorator each view actually carries in the source: every task
view is decorated with `@login_required`; the `logout` view in
`controllers/auth_controller.py` is not. -/
def auth_required_routes : List RouteEntry :=
  [ { pattern := "/logout", has_login_required := false },
    { pattern := "/tasks", has_login_required := true },
    { pattern := "/tasks/new", has_login_required := true },
    { pattern := "/tasks/<task_id>", has_login_required := true },
    { pattern := "/tasks/<task_id>/edit", has_login_required := true },
    { pattern := "/tasks/<task_id>/delete", has_login_required := true },
    { pattern := "/tasks/<task_id>/toggle", has_login_required := true } ]

/-- Modelled from the spec: the Flask-Login `login_required` guard
(§4.2) redirects an unauthenticated request to the login view and
preserves the requested path in the `next` query parameter, which the
`login` handler in `controllers/auth_controller.py` reads back for the
post-login redirect. -/
def login_redirect_with_next (path : String) : String :=
  "/login?next=" ++ path

/-- Location an unauthenticated request to one of the auth-marked routes
is redirected to: a `@login_required` view never runs and the guard
redirects with the path preserved; `/logout` has no guard, so its handler
runs `logout_user()` and redirects to the login view with no `next`
parameter. -/
def unauthenticated_redirect (r : RouteEntry) (path : String) : String :=
  if r.has_login_required then login_redirect_with_next path
  else if r.pattern = "/logout" then "/login"
  else ""

/-- Uniqueness constraint on `task_owners.task_id` (`models/user.py`
declares the column with `unique=True`): a task id appears in at most
one ownership row. -/
def owners_unique (db : DB) : Prop :=
  ∀ o1 ∈ db.owners, ∀ o2 ∈ db.owners, o1.task_id = o2.task_id → o1 = o2

/-- Foreign-key discipline of `task_owners.task_id`: every ownership row
points at an existing task row. -/
def owners_fk (db : DB) : Prop :=
  ∀ o ∈ db.owners, ∃ t ∈ db.tasks, o.task_id = t.id

/-- Concrete task used by the witness theorems. -/
def sample_task : Task :=
  { id := 1, title := "Buy milk", description := some "2% organic",
    due_date := some ⟨2025, 1, 1, 10, 0⟩, completed := false, created_at := 5 }

/-- Concrete store used by the witness theorems: two users, one task
owned by user 1. -/
def sample_db : DB :=
  { users := [{ id := 1, username := "alice", email := "alice@example.com", password_hash := "h1" },
              { id := 2, username := "bob", email := "bob@example.com", password_hash := "h2" }],
    tasks := [sample_task],
    owners := [{ id := 1, user_id := 1, task_id := 1 }] }

/-!  Helper lemmas shared by the claim theorems. -/

theorem mem_user_tasks_query {db : DB} {uid : Nat} {t : Task} :
    t ∈ user_tasks_query db uid ↔
      t ∈ db.tasks ∧ ∃ o ∈ db.owners, o.task_id = t.id ∧ o.user_id = uid := by
  simp [user_tasks_query, List.mem_filter, List.any_eq_true]

theorem get_user_task_mem {db : DB} {uid task_id : Nat} {t : Task}
    (h : get_user_task db uid task_id = some t) :
    t ∈ user_tasks_query db uid ∧ t.id = task_id := by
  refine ⟨List.mem_of_find?_eq_some h, ?_⟩
  have := List.find?_some h
  simpa using this

theorem apply_sort_perm (sort_by : String) (ts : List Task) :
    (apply_sort sort_by ts).Perm ts := by
  unfold apply_sort
  split
  · exact List.perm_insertionSort title_le ts
  · split
    · exact List.perm_insertionSort date_le ts
    · exact List.perm_insertionSort created_desc_le ts

theorem mem_of_mem_apply_filter {now : DateTime} {ft : String} {ts : List Task} {t : Task}
    (h : t ∈ apply_filter now ft ts) : t ∈ ts := by
  unfold apply_filter at h
  split at h
  · exact (List.mem_filter.mp h).1
  · split at h
    · exact (List.mem_filter.mp h).1
    · split at h
      · exact (List.mem_filter.mp h).1
      · exact h

theorem task_list_tasks_eq (db : DB) (uid : Nat) (now : DateTime)
    (filter_arg sort_arg : String) :
    (task_list db uid now filter_arg sort_arg).tasks =
      apply_sort (coerce_sort sort_arg)
        (apply_filter now (coerce_filter filter_arg) (user_tasks_query db uid)) := rfl

theorem get_user_task_replace {db : DB} {uid task_id : Nat} {t t2 : Task}
    (h : get_user_task db uid task_id = some t) (hid : t2.id = t.id) :
    get_user_task
      { db with tasks := db.tasks.map (fun x => if x.id == task_id then t2 else x) }
      uid task_id = some t2 := by
  have htid : t.id = task_id := (get_user_task_mem h).2
  have hfid : ∀ x : Task, (if x.id == task_id then t2 else x).id = x.id := by
    intro x
    by_cases hx : x.id = task_id
    · simp [hx, hid, htid]
    · simp [hx]
  have hpf : ((fun x : Task =>
        db.owners.any (fun o => o.task_id == x.id && o.user_id == uid)) ∘
        (fun x : Task => if x.id == task_id then t2 else x)) =
      (fun x : Task => db.owners.any (fun o => o.task_id == x.id && o.user_id == uid)) := by
    funext x
    simp only [Function.comp]
    rw [hfid x]
  have hqf : ((fun x : Task => x.id == task_id) ∘
        (fun x : Task => if x.id == task_id then t2 else x)) =
      (fun x : Task => x.id == task_id) := by
    funext x
    simp only [Function.comp]
    rw [hfid x]
  unfold get_user_task user_tasks_query at h ⊢
  rw [List.filter_map, hpf, List.find?_map, hqf, h]
  simp [htid]

/-- C1: for distinct users `a` and `b` and a task of `a`, every access
through the session of `b` — get/detail, edit, delete, toggle — yields the
not-found outcome (never a distinct forbidden outcome, which does not
exist in the embedding) and leaves the store unchanged, and the task
never appears in the list results of `b`: every task read, update and delete
is filtered through the ownership link on the id of the acting user. -/
theorem C1_ownership_isolation (db : DB) (a b : Nat) (t : Task) (o : TaskOwner)
    (huniq : owners_unique db) (hab : a ≠ b)
    (ho : o ∈ db.owners) (houser : o.user_id = a) (htask : o.task_id = t.id) :
    get_user_task db b t.id = none ∧
    task_detail db b t.id = .notFound ∧
    task_edit_get db b t.id = .notFound ∧
    (∀ f, task_edit db b t.id f = (db, .notFound)) ∧
    task_delete db b t.id = (db, .notFound) ∧
    task_toggle db b t.id = (db, .notFound) ∧
    (∀ now filter_arg sort_arg, t ∉ (task_list db b now filter_arg sort_arg).tasks) := by
  have hnone : ∀ x ∈ user_tasks_query db b, x.id = t.id → False := by
    intro x hx hxid
    obtain ⟨-, o2, ho2, ho2t, ho2u⟩ := mem_user_tasks_query.mp hx
    have heq : o2 = o := huniq o2 ho2 o ho (by rw [ho2t, hxid, htask])
    apply hab
    rw [← houser, ← heq, ho2u]
  have hget : get_user_task db b t.id = none := by
    apply List.find?_eq_none.mpr
    intro x hx
    simpa using fun hxid => hnone x hx hxid
  refine ⟨hget, ?_, ?_, ?_, ?_, ?_, ?_⟩
  · simp [task_detail, task_edit_get, hget]
  · simp [task_edit_get, hget]
  · intro f
    simp [task_edit, hget]
  · simp [task_delete, hget]
  · simp [task_toggle, hget]
  · intro now filter_arg sort_arg hmem
    rw [task_list_tasks_eq] at hmem
    have h1 : t ∈ apply_filter now (coerce_filter filter_arg) (user_tasks_query db b) :=
      (apply_sort_perm (coerce_sort sort_arg) _).mem_iff.mp hmem
    exact hnone t (mem_of_mem_apply_filter h1) rfl

/-- Witness for C1 at a concrete store: user 2 cannot see, edit, delete
or toggle the task owned by user 1. -/
theorem C1_ownership_isolation_witness :
    owners_unique sample_db ∧ (1 : Nat) ≠ 2 ∧
    (⟨1, 1, 1⟩ : TaskOwner) ∈ sample_db.owners ∧
    (get_user_task sample_db 2 sample_task.id = none ∧
     task_detail sample_db 2 sample_task.id = .notFound ∧
     task_edit_get sample_db 2 sample_task.id = .notFound ∧
     (∀ f, task_edit sample_db 2 sample_task.id f = (sample_db, .notFound)) ∧
     task_delete sample_db 2 sample_task.id = (sample_db, .notFound) ∧
     task_toggle sample_db 2 sample_task.id = (sample_db, .notFound) ∧
     (∀ now filter_arg sort_arg,
        sample_task ∉ (task_list sample_db 2 now filter_arg sort_arg).tasks)) :=
  ⟨by unfold owners_unique; decide, by decide, by decide,
   C1_ownership_isolation sample_db 1 2 sample_task ⟨1, 1, 1⟩
     (by unfold owners_unique; decide) (by decide) (by decide) (by decide) (by decide)⟩

/-- C2 counterexample: `GET /logout` is marked as requiring
authentication, and an unauthenticated request to it is redirected to
`/login` — but the `logout` view carries no `login_required` guard, so
the redirect carries no `next` parameter and the originally requested
path is not preserved. -/
theorem C2_counterexample :
    (⟨"/logout", false⟩ : RouteEntry) ∈ auth_required_routes ∧
    unauthenticated_redirect ⟨"/logout", false⟩ "/logout" = "/login" ∧
    unauthenticated_redirect ⟨"/logout", false⟩ "/logout" ≠
      login_redirect_with_next "/logout" := by
  refine ⟨by decide, by decide, by decide⟩

/-- C2 (amended): every auth-marked route except `/logout` carries the
`login_required` guard, and for guarded routes an unauthenticated
request is redirected to `/login` with the originally requested path
preserved in the `next` parameter; `/logout` is unguarded and its
handler redirects an unauthenticated request to `/login` without
preserving the path. -/
theorem C2_unauthenticated_redirects (r : RouteEntry)
    (hr : r ∈ auth_required_routes) (path : String) :
    (r.pattern ≠ "/logout" → r.has_login_required = true) ∧
    (r.has_login_required = true →
      unauthenticated_redirect r path = login_redirect_with_next path) ∧
    (r.pattern = "/logout" →
      r.has_login_required = false ∧ unauthenticated_redirect r path = "/login") := by
  fin_cases hr <;> simp [unauthenticated_redirect, login_redirect_with_next]

/-- Witness for C2 at the task-list route. -/
theorem C2_unauthenticated_redirects_witness :
    (⟨"/tasks", true⟩ : RouteEntry) ∈ auth_required_routes ∧
    (((⟨"/tasks", true⟩ : RouteEntry).pattern ≠ "/logout" →
        (⟨"/tasks", true⟩ : RouteEntry).has_login_required = true) ∧
     ((⟨"/tasks", true⟩ : RouteEntry).has_login_required = true →
        unauthenticated_redirect ⟨"/tasks", true⟩ "/tasks" =
          login_redirect_with_next "/tasks") ∧
     ((⟨"/tasks", true⟩ : RouteEntry).pattern = "/logout" →
        (⟨"/tasks", true⟩ : RouteEntry).has_login_required = false ∧
        unauthenticated_redirect ⟨"/tasks", true⟩ "/tasks" = "/login")) :=
  ⟨by decide, C2_unauthenticated_redirects ⟨"/tasks", true⟩ (by decide) "/tasks"⟩

theorem overdue_pred_iff {now : DateTime} {t : Task} :
    overdue_pred now t = true ↔
      t.completed = false ∧ ∃ d, t.due_date = some d ∧ d.key < now.key := by
  cases hd : t.due_date <;> simp [overdue_pred, hd]

/-- C3: for every filter value, `task_list` returns exactly the
ownership-scoped tasks satisfying that filter — `pending` those with
completed false, `completed` those with completed true, `all` the whole
scoped set, `overdue` exactly the subset of `all` that is not completed,
has a due date, and whose due date is strictly before the query-time
instant — and any other filter value is silently coerced to `all`. -/
theorem C3_filter_semantics (db : DB) (uid : Nat) (now : DateTime)
    (filter_arg sort_arg : String) :
    (filter_arg = "pending" →
      ((task_list db uid now filter_arg sort_arg).tasks).Perm
        ((user_tasks_query db uid).filter (fun t => t.completed == false))) ∧
    (filter_arg = "completed" →
      ((task_list db uid now filter_arg sort_arg).tasks).Perm
        ((user_tasks_query db uid).filter (fun t => t.completed == true))) ∧
    (filter_arg = "all" →
      ((task_list db uid now filter_arg sort_arg).tasks).Perm (user_tasks_query db uid)) ∧
    (filter_arg = "overdue" → ∀ t : Task,
      t ∈ (task_list db uid now filter_arg sort_arg).tasks ↔
        t ∈ (task_list db uid now "all" sort_arg).tasks ∧ t.completed = false ∧
          ∃ d, t.due_date = some d ∧ d.key < now.key) ∧
    (filter_arg ≠ "all" → filter_arg ≠ "pending" → filter_arg ≠ "completed" →
      filter_arg ≠ "overdue" →
      task_list db uid now filter_arg sort_arg = task_list db uid now "all" sort_arg ∧
      (task_list db uid now filter_arg sort_arg).filter_type = "all") := by
  refine ⟨?_, ?_, ?_, ?_, ?_⟩
  · rintro rfl
    rw [task_list_tasks_eq]
    exact apply_sort_perm (coerce_sort sort_arg) _
  · rintro rfl
    rw [task_list_tasks_eq]
    exact apply_sort_perm (coerce_sort sort_arg) _
  · rintro rfl
    rw [task_list_tasks_eq]
    exact apply_sort_perm (coerce_sort sort_arg) _
  · rintro rfl t
    rw [task_list_tasks_eq, task_list_tasks_eq,
        (apply_sort_perm _ _).mem_iff, (apply_sort_perm _ _).mem_iff]
    show t ∈ List.filter (overdue_pred now) (user_tasks_query db uid) ↔
      t ∈ user_tasks_query db uid ∧ _
    rw [List.mem_filter, overdue_pred_iff]
  · intro h1 h2 h3 h4
    have hcf : coerce_filter filter_arg = "all" := by
      simp [coerce_filter, h1, h2, h3, h4]
    constructor
    · unfold task_list
      rw [hcf]
      rfl
    · simp [task_list, hcf]

/-- Witness for C3 at a concrete store and the `overdue` filter. -/
theorem C3_filter_semantics_witness :
    (("overdue" : String) = "pending" →
      ((task_list sample_db 1 ⟨2026, 1, 1, 0, 0⟩ "overdue" "created").tasks).Perm
        ((user_tasks_query sample_db 1).filter (fun t => t.completed == false))) ∧
    (("overdue" : String) = "completed" →
      ((task_list sample_db 1 ⟨2026, 1, 1, 0, 0⟩ "overdue" "created").tasks).Perm
        ((user_tasks_query sample_db 1).filter (fun t => t.completed == true))) ∧
    (("overdue" : String) = "all" →
      ((task_list sample_db 1 ⟨2026, 1, 1, 0, 0⟩ "overdue" "created").tasks).Perm
        (user_tasks_query sample_db 1)) ∧
    (("overdue" : String) = "overdue" → ∀ t : Task,
      t ∈ (task_list sample_db 1 ⟨2026, 1, 1, 0, 0⟩ "overdue" "created").tasks ↔
        t ∈ (task_list sample_db 1 ⟨2026, 1, 1, 0, 0⟩ "all" "created").tasks ∧
          t.completed = false ∧
          ∃ d, t.due_date = some d ∧ d.key < DateTime.key ⟨2026, 1, 1, 0, 0⟩) ∧
    (("overdue" : String) ≠ "all" → ("overdue" : String) ≠ "pending" →
      ("overdue" : String) ≠ "completed" → ("overdue" : String) ≠ "overdue" →
      task_list sample_db 1 ⟨2026, 1, 1, 0, 0⟩ "overdue" "created" =
        task_list sample_db 1 ⟨2026, 1, 1, 0, 0⟩ "all" "created" ∧
      (task_list sample_db 1 ⟨2026, 1, 1, 0, 0⟩ "overdue" "created").filter_type = "all") :=
  C3_filter_semantics sample_db 1 ⟨2026, 1, 1, 0, 0⟩ "overdue" "created"

instance : IsTrans Task title_le :=
  ⟨fun _ _ _ hab hbc => le_trans hab hbc⟩

instance : IsTotal Task title_le :=
  ⟨fun a b => le_total a.title.data b.title.data⟩

instance : IsTrans Task date_le :=
  ⟨by
    intro a b c hab hbc
    unfold date_le at *
    omega⟩

instance : IsTotal Task date_le :=
  ⟨by
    intro a b
    unfold date_le
    omega⟩

instance : IsTrans Task created_desc_le :=
  ⟨fun _ _ _ hab hbc => le_trans hbc hab⟩

instance : IsTotal Task created_desc_le :=
  ⟨fun a b => le_total b.created_at a.created_at⟩

theorem date_le_spec {x y : Task} (h : date_le x y) :
    (x.due_date = none → y.due_date = none) ∧
    (∀ dx dy, x.due_date = some dx → y.due_date = some dy → dx.key ≤ dy.key) := by
  constructor
  · intro hx
    cases hy : y.due_date with
    | none => rfl
    | some d =>
      exfalso
      simp [date_le, date_null_flag, hx, hy] at h
  · intro dx dy hx hy
    simpa [date_le, date_null_flag, date_key, hx, hy] using h

/-- C4: for every sort value, `task_list` orders its result as
specified — `title` ascending lexical, `date` ascending by due date with
every task lacking a due date placed after every task that has one,
`created` descending by creation timestamp — any other sort value is
silently coerced to `created`, and the ordered result is a permutation
of the filtered ownership-scoped set. -/
theorem C4_sort_semantics (db : DB) (uid : Nat) (now : DateTime)
    (filter_arg sort_arg : String) :
    (sort_arg = "title" →
      ((task_list db uid now filter_arg sort_arg).tasks).Pairwise
        (fun x y => x.title.data ≤ y.title.data)) ∧
    (sort_arg = "date" →
      ((task_list db uid now filter_arg sort_arg).tasks).Pairwise
        (fun x y =>
          (x.due_date = none → y.due_date = none) ∧
          (∀ dx dy, x.due_date = some dx → y.due_date = some dy →
            dx.key ≤ dy.key))) ∧
    (sort_arg = "created" →
      ((task_list db uid now filter_arg sort_arg).tasks).Pairwise
        (fun x y => y.created_at ≤ x.created_at)) ∧
    (sort_arg ≠ "created" → sort_arg ≠ "date" → sort_arg ≠ "title" →
      task_list db uid now filter_arg sort_arg =
        task_list db uid now filter_arg "created" ∧
      (task_list db uid now filter_arg sort_arg).sort_by = "created") ∧
    ((task_list db uid now filter_arg sort_arg).tasks).Perm
      (apply_filter now (coerce_filter filter_arg) (user_tasks_query db uid)) := by
  refine ⟨?_, ?_, ?_, ?_, ?_⟩
  · rintro rfl
    rw [task_list_tasks_eq]
    exact List.sorted_insertionSort title_le _
  · rintro rfl
    rw [task_list_tasks_eq]
    exact (List.sorted_insertionSort date_le _).imp (fun h => date_le_spec h)
  · rintro rfl
    rw [task_list_tasks_eq]
    exact List.sorted_insertionSort created_desc_le _
  · intro h1 h2 h3
    have hcs : coerce_sort sort_arg = "created" := by
      simp [coerce_sort, h1, h2, h3]
    constructor
    · unfold task_list
      rw [hcs]
      rfl
    · simp [task_list, hcs]
  · rw [task_list_tasks_eq]
    exact apply_sort_perm (coerce_sort sort_arg) _

/-- Witness for C4 at a concrete store and the `date` sort. -/
theorem C4_sort_semantics_witness :
    (("date" : String) = "title" →
      ((task_list sample_db 1 ⟨2026, 1, 1, 0, 0⟩ "all" "date").tasks).Pairwise
        (fun x y => x.title.data ≤ y.title.data)) ∧
    (("date" : String) = "date" →
      ((task_list sample_db 1 ⟨2026, 1, 1, 0, 0⟩ "all" "date").tasks).Pairwise
        (fun x y =>
          (x.due_date = none → y.due_date = none) ∧
          (∀ dx dy, x.due_date = some dx → y.due_date = some dy →
            dx.key ≤ dy.key))) ∧
    (("date" : String) = "created" →
      ((task_list sample_db 1 ⟨2026, 1, 1, 0, 0⟩ "all" "date").tasks).Pairwise
        (fun x y => y.created_at ≤ x.created_at)) ∧
    (("date" : String) ≠ "created" → ("date" : String) ≠ "date" →
      ("date" : String) ≠ "title" →
      task_list sample_db 1 ⟨2026, 1, 1, 0, 0⟩ "all" "date" =
        task_list sample_db 1 ⟨2026, 1, 1, 0, 0⟩ "all" "created" ∧
      (task_list sample_db 1 ⟨2026, 1, 1, 0, 0⟩ "all" "date").sort_by = "created") ∧
    ((task_list sample_db 1 ⟨2026, 1, 1, 0, 0⟩ "all" "date").tasks).Perm
      (apply_filter ⟨2026, 1, 1, 0, 0⟩ (coerce_filter "all") (user_tasks_query sample_db 1)) :=
  C4_sort_semantics sample_db 1 ⟨2026, 1, 1, 0, 0⟩ "all" "date"

/-- C5: for every user and every filter/sort selection, the three counts
of `task_list` are computed over the full ownership-scoped task set —
total is the number of tasks of the user, pending the number with
completed false, completed the number with completed true — and each is
unchanged under any other filter/sort selection. -/
theorem C5_counts_filter_independent (db : DB) (uid : Nat) (now : DateTime)
    (filter_arg sort_arg filter_arg2 sort_arg2 : String) :
    (task_list db uid now filter_arg sort_arg).total_tasks =
      (user_tasks_query db uid).length ∧
    (task_list db uid now filter_arg sort_arg).pending_count =
      ((user_tasks_query db uid).filter (fun t => t.completed == false)).length ∧
    (task_list db uid now filter_arg sort_arg).completed_count =
      ((user_tasks_query db uid).filter (fun t => t.completed == true)).length ∧
    (task_list db uid now filter_arg sort_arg).total_tasks =
      (task_list db uid now filter_arg2 sort_arg2).total_tasks ∧
    (task_list db uid now filter_arg sort_arg).pending_count =
      (task_list db uid now filter_arg2 sort_arg2).pending_count ∧
    (task_list db uid now filter_arg sort_arg).completed_count =
      (task_list db uid now filter_arg2 sort_arg2).completed_count :=
  ⟨rfl, rfl, rfl, rfl, rfl, rfl⟩

/-- Witness for C5 at a concrete store: the counts under the `completed`
filter coincide with those under `all`. -/
theorem C5_counts_filter_independent_witness :
    (task_list sample_db 1 ⟨2026, 1, 1, 0, 0⟩ "completed" "title").total_tasks =
      (user_tasks_query sample_db 1).length ∧
    (task_list sample_db 1 ⟨2026, 1, 1, 0, 0⟩ "completed" "title").pending_count =
      ((user_tasks_query sample_db 1).filter (fun t => t.completed == false)).length ∧
    (task_list sample_db 1 ⟨2026, 1, 1, 0, 0⟩ "completed" "title").completed_count =
      ((user_tasks_query sample_db 1).filter (fun t => t.completed == true)).length ∧
    (task_list sample_db 1 ⟨2026, 1, 1, 0, 0⟩ "completed" "title").total_tasks =
      (task_list sample_db 1 ⟨2026, 1, 1, 0, 0⟩ "all" "created").total_tasks ∧
    (task_list sample_db 1 ⟨2026, 1, 1, 0, 0⟩ "completed" "title").pending_count =
      (task_list sample_db 1 ⟨2026, 1, 1, 0, 0⟩ "all" "created").pending_count ∧
    (task_list sample_db 1 ⟨2026, 1, 1, 0, 0⟩ "completed" "title").completed_count =
      (task_list sample_db 1 ⟨2026, 1, 1, 0, 0⟩ "all" "created").completed_count :=
  C5_counts_filter_independent sample_db 1 ⟨2026, 1, 1, 0, 0⟩ "completed" "title" "all" "created"

theorem task_toggle_some {db : DB} {uid task_id : Nat} {t : Task}
    (h : get_user_task db uid task_id = some t) :
    (task_toggle db uid task_id).2 = .toggled ∧
    get_user_task (task_toggle db uid task_id).1 uid task_id =
      some { t with completed := !t.completed } := by
  have ht2 : (if t.completed then t.mark_pending else t.mark_completed) =
      { t with completed := !t.completed } := by
    obtain ⟨i, ti, de, du, c, cr⟩ := t
    cases c <;> rfl
  constructor
  · unfold task_toggle
    rw [h]
  · unfold task_toggle
    rw [h]
    show get_user_task
        { db with tasks := List.map
                    (fun x => if (x.id == task_id) = true
                      then (if t.completed = true then t.mark_pending else t.mark_completed)
                      else x)
                    db.tasks } uid task_id = _
    rw [ht2]
    exact @get_user_task_replace db uid task_id t { t with completed := !t.completed } h rfl

/-- C6: for a task owned by the acting user, one application of the
toggle operation flips the stored completion flag (pending becomes
completed and completed becomes pending, the flag being a two-valued
boolean) and leaves every other field unchanged, and a second
application restores the task exactly to its original state. -/
theorem C6_toggle_involution (db : DB) (uid task_id : Nat) (t : Task)
    (h : get_user_task db uid task_id = some t) :
    (task_toggle db uid task_id).2 = .toggled ∧
    get_user_task (task_toggle db uid task_id).1 uid task_id =
      some { t with completed := !t.completed } ∧
    (task_toggle (task_toggle db uid task_id).1 uid task_id).2 = .toggled ∧
    get_user_task (task_toggle (task_toggle db uid task_id).1 uid task_id).1 uid task_id =
      some t := by
  obtain ⟨h1o, h1g⟩ := task_toggle_some h
  obtain ⟨h2o, h2g⟩ := task_toggle_some h1g
  refine ⟨h1o, h1g, h2o, ?_⟩
  rw [h2g]
  obtain ⟨i, ti, de, du, c, cr⟩ := t
  cases c <;> rfl

/-- Witness for C6: toggling the sample task twice restores it. -/
theorem C6_toggle_involution_witness :
    get_user_task sample_db 1 1 = some sample_task ∧
    ((task_toggle sample_db 1 1).2 = .toggled ∧
     get_user_task (task_toggle sample_db 1 1).1 1 1 =
       some { sample_task with completed := !sample_task.completed } ∧
     (task_toggle (task_toggle sample_db 1 1).1 1 1).2 = .toggled ∧
     get_user_task (task_toggle (task_toggle sample_db 1 1).1 1 1).1 1 1 =
       some sample_task) :=
  ⟨by decide, C6_toggle_involution sample_db 1 1 sample_task (by decide)⟩

theorem strptime_empty : strptime_date_time "" = none := rfl

/-- C7: on create and update alike, validation checks run in the order
title presence, title length (200), description length (1000), due-date
parse, the first failing check short-circuiting the rest; a trimmed
title of exactly 200 characters passes, and on any validation error
neither `task_create` nor `task_edit` persists a change. -/
theorem C7_validation_order (f : TaskForm) (db : DB) (uid created_ts task_id : Nat) :
    (py_strip f.title = "" → validate_task_form f = .error .titleRequired) ∧
    (py_strip f.title ≠ "" → (py_strip f.title).length > 200 →
      validate_task_form f = .error .titleTooLong) ∧
    (py_strip f.title ≠ "" → (py_strip f.title).length ≤ 200 →
      (py_strip f.description).length > 1000 →
      validate_task_form f = .error .descriptionTooLong) ∧
    (py_strip f.title ≠ "" → (py_strip f.title).length ≤ 200 →
      (py_strip f.description).length ≤ 1000 →
      py_strip f.due_date ≠ "" → strptime_date_time (py_strip f.due_date) = none →
      validate_task_form f = .error .dueDateFormat) ∧
    ((py_strip f.title).length = 200 → (py_strip f.description).length ≤ 1000 →
      (py_strip f.due_date = "" ∨ ∃ d, strptime_date_time (py_strip f.due_date) = some d) →
      ∃ p, validate_task_form f = .ok p) ∧
    (∀ e, validate_task_form f = .error e →
      task_create db uid created_ts f = (db, .validationError e) ∧
      (task_edit db uid task_id f).1 = db) := by
  refine ⟨?_, ?_, ?_, ?_, ?_, ?_⟩
  · intro h1
    simp [validate_task_form, h1]
  · intro h1 h2
    simp [validate_task_form, h1, h2]
  · intro h1 h2 h3
    simp [validate_task_form, h1, Nat.not_lt.mpr h2, h3]
  · intro h1 h2 h3 h4 h5
    simp [validate_task_form, h1, Nat.not_lt.mpr h2, Nat.not_lt.mpr h3, h4, h5]
  · intro h1 h2 h3
    have hne : py_strip f.title ≠ "" := by
      intro he
      rw [he] at h1
      simp at h1
    have hgt : ¬ ((py_strip f.title).length > 200) := by omega
    rcases h3 with hde | ⟨d, hd⟩
    · refine ⟨⟨py_strip f.title,
        if py_strip f.description = "" then none else some (py_strip f.description),
        none, f.completed == some "on"⟩, ?_⟩
      simp [validate_task_form, hne, hgt, Nat.not_lt.mpr h2, hde]
    · have hdne : py_strip f.due_date ≠ "" := by
        intro he
        rw [he, strptime_empty] at hd
        cases hd
      refine ⟨⟨py_strip f.title,
        if py_strip f.description = "" then none else some (py_strip f.description),
        some d, f.completed == some "on"⟩, ?_⟩
      simp [validate_task_form, hne, hgt, Nat.not_lt.mpr h2, hdne, hd]
  · intro e he
    constructor
    · simp [task_create, he]
    · simp only [task_edit, he]
      split <;> rfl

/-- Witness for C7 at a form whose due date does not parse. -/
theorem C7_validation_order_witness :
    (py_strip "hi" = "" →
      validate_task_form ⟨"hi", "d", "bad", none⟩ = .error .titleRequired) ∧
    (py_strip "hi" ≠ "" → (py_strip "hi").length > 200 →
      validate_task_form ⟨"hi", "d", "bad", none⟩ = .error .titleTooLong) ∧
    (py_strip "hi" ≠ "" → (py_strip "hi").length ≤ 200 →
      (py_strip "d").length > 1000 →
      validate_task_form ⟨"hi", "d", "bad", none⟩ = .error .descriptionTooLong) ∧
    (py_strip "hi" ≠ "" → (py_strip "hi").length ≤ 200 →
      (py_strip "d").length ≤ 1000 →
      py_strip "bad" ≠ "" → strptime_date_time (py_strip "bad") = none →
      validate_task_form ⟨"hi", "d", "bad", none⟩ = .error .dueDateFormat) ∧
    ((py_strip "hi").length = 200 → (py_strip "d").length ≤ 1000 →
      (py_strip "bad" = "" ∨ ∃ d, strptime_date_time (py_strip "bad") = some d) →
      ∃ p, validate_task_form ⟨"hi", "d", "bad", none⟩ = .ok p) ∧
    (∀ e, validate_task_form ⟨"hi", "d", "bad", none⟩ = .error e →
      task_create sample_db 1 9 ⟨"hi", "d", "bad", none⟩ = (sample_db, .validationError e) ∧
      (task_edit sample_db 1 1 ⟨"hi", "d", "bad", none⟩).1 = sample_db) :=
  C7_validation_order ⟨"hi", "d", "bad", none⟩ sample_db 1 9 1

/-- C8 counterexample: the handler never trims the password, so a
password of six spaces — empty after trimming — passes every check and
registration succeeds, contradicting the claim that username, email and
password must all be non-empty after trimming. -/
theorem C8_counterexample :
    py_strip "      " = "" ∧
    (register { users := [], tasks := [], owners := [] }
        (fun s => String.append "hashed:" s)
        { username := "alice", email := "alice@example.com",
          password := "      ", confirm_password := "      " }).2 =
      .registered 1 := by
  refine ⟨by decide, by decide⟩

/-- C8 (amended): registration requires username and email non-empty
after trimming and the password non-empty as submitted (the password is
never trimmed), the password equal to its confirmation and at least 6
characters long; the stored email is the trimmed, lowercased input; a
taken username (case-sensitive exact match) fails with the
duplicate-username error and, when stored emails are lowercased (as this
handler guarantees), an already-registered email matched
case-insensitively fails with the duplicate-email error — in both
duplicate cases the store is unchanged and no user is created. -/
theorem C8_registration (db : DB) (hash : String → String) (f : RegisterForm) :
    (∀ uid, (register db hash f).2 = .registered uid →
      py_strip f.username ≠ "" ∧ py_lower (py_strip f.email) ≠ "" ∧ f.password ≠ "" ∧
      f.password = f.confirm_password ∧ 6 ≤ f.password.length ∧
      uid = next_user_id db ∧
      (register db hash f).1.users =
        db.users ++ [{ id := next_user_id db, username := py_strip f.username,
                       email := py_lower (py_strip f.email),
                       password_hash := hash f.password }]) ∧
    (py_strip f.username ≠ "" → py_lower (py_strip f.email) ≠ "" → f.password ≠ "" →
      f.password = f.confirm_password → 6 ≤ f.password.length →
      (∃ u ∈ db.users, u.username = py_strip f.username) →
      register db hash f = (db, .duplicateUsername)) ∧
    (py_strip f.username ≠ "" → py_lower (py_strip f.email) ≠ "" → f.password ≠ "" →
      f.password = f.confirm_password → 6 ≤ f.password.length →
      (∀ u ∈ db.users, u.username ≠ py_strip f.username) →
      (∀ u ∈ db.users, u.email = py_lower u.email) →
      (∃ u ∈ db.users, py_lower (py_strip f.email) = py_lower u.email) →
      register db hash f = (db, .duplicateEmail)) := by
  refine ⟨?_, ?_, ?_⟩
  · intro uid h
    simp only [register] at h
    split_ifs at h with h1 h2 h3 h4 h5
    push_neg at h1
    obtain ⟨hu, he, hp⟩ := h1
    have hreg : register db hash f =
        ({ db with users := db.users ++
                             [{ id := next_user_id db,
                                username := py_strip f.username,
                                email := py_lower (py_strip f.email),
                                password_hash := hash f.password }] },
         .registered (next_user_id db)) := by
      simp only [register]
      rw [if_neg (by push_neg; exact ⟨hu, he, hp⟩), if_neg h2, if_neg h3,
          if_neg h4, if_neg h5]
    refine ⟨hu, he, hp, not_ne_iff.mp h2, Nat.not_lt.mp h3, ?_, ?_⟩
    · simp only [hreg, RegisterOutcome.registered.injEq] at h
      omega
    · rw [hreg]
  · rintro hu he hp hpc h6 ⟨u, hum, hueq⟩
    have hany : db.users.any (fun x => x.username == py_strip f.username) = true :=
      List.any_eq_true.mpr ⟨u, hum, by simp [hueq]⟩
    simp only [register]
    rw [if_neg (by push_neg; exact ⟨hu, he, hp⟩), if_neg (not_ne_iff.mpr hpc),
        if_neg (Nat.not_lt.mpr h6), if_pos hany]
  · rintro hu he hp hpc h6 hnouser hlower ⟨u, hum, hueq⟩
    have hanyU : ¬ (db.users.any (fun x => x.username == py_strip f.username) = true) := by
      simp only [List.any_eq_true, not_exists]
      intro x
      simp only [not_and]
      intro hx
      simp [hnouser x hx]
    have hanyE : db.users.any (fun x => x.email == py_lower (py_strip f.email)) = true := by
      refine List.any_eq_true.mpr ⟨u, hum, ?_⟩
      rw [beq_iff_eq, hueq, ← hlower u hum]
    simp only [register]
    rw [if_neg (by push_neg; exact ⟨hu, he, hp⟩), if_neg (not_ne_iff.mpr hpc),
        if_neg (Nat.not_lt.mpr h6), if_neg hanyU, if_pos hanyE]

/-- Witness for C8: the sample store already holds username `alice` and
email `alice@example.com`, so re-registering either fails. -/
theorem C8_registration_witness :
    (∀ uid, (register sample_db (fun s => String.append "hashed:" s)
        ⟨"alice", "Alice@Example.com", "secret1", "secret1"⟩).2 = .registered uid →
      py_strip "alice" ≠ "" ∧ py_lower (py_strip "Alice@Example.com") ≠ "" ∧
      ("secret1" : String) ≠ "" ∧ ("secret1" : String) = "secret1" ∧
      6 ≤ ("secret1" : String).length ∧ uid = next_user_id sample_db ∧
      (register sample_db (fun s => String.append "hashed:" s)
          ⟨"alice", "Alice@Example.com", "secret1", "secret1"⟩).1.users =
        sample_db.users ++ [{ id := next_user_id sample_db,
                              username := py_strip "alice",
                              email := py_lower (py_strip "Alice@Example.com"),
                              password_hash := String.append "hashed:" "secret1" }]) ∧
    (py_strip "alice" ≠ "" → py_lower (py_strip "Alice@Example.com") ≠ "" →
      ("secret1" : String) ≠ "" → ("secret1" : String) = "secret1" →
      6 ≤ ("secret1" : String).length →
      (∃ u ∈ sample_db.users, u.username = py_strip "alice") →
      register sample_db (fun s => String.append "hashed:" s)
          ⟨"alice", "Alice@Example.com", "secret1", "secret1"⟩ =
        (sample_db, .duplicateUsername)) ∧
    (py_strip "alice" ≠ "" → py_lower (py_strip "Alice@Example.com") ≠ "" →
      ("secret1" : String) ≠ "" → ("secret1" : String) = "secret1" →
      6 ≤ ("secret1" : String).length →
      (∀ u ∈ sample_db.users, u.username ≠ py_strip "alice") →
      (∀ u ∈ sample_db.users, u.email = py_lower u.email) →
      (∃ u ∈ sample_db.users, py_lower (py_strip "Alice@Example.com") = py_lower u.email) →
      register sample_db (fun s => String.append "hashed:" s)
          ⟨"alice", "Alice@Example.com", "secret1", "secret1"⟩ =
        (sample_db, .duplicateEmail)) :=
  C8_registration sample_db (fun s => String.append "hashed:" s)
    ⟨"alice", "Alice@Example.com", "secret1", "secret1"⟩

theorem mem_le_foldr_max (l : List Nat) (a : Nat) (h : a ∈ l) : a ≤ l.foldr max 0 := by
  induction l with
  | nil => cases h
  | cons b bs ih =>
    rcases List.mem_cons.mp h with rfl | hb
    · exact le_max_left _ _
    · exact le_trans (ih hb) (le_max_right _ _)

theorem validate_task_form_ok {f : TaskForm} {p : ParsedTaskForm}
    (h : validate_task_form f = .ok p) :
    p.title = py_strip f.title ∧
    p.description =
      (if py_strip f.description = "" then none else some (py_strip f.description)) ∧
    p.completed = (f.completed == some "on") ∧
    (py_strip f.due_date = "" → p.due_date = none) ∧
    (∀ d, strptime_date_time (py_strip f.due_date) = some d → p.due_date = some d) := by
  by_cases h1 : py_strip f.title = ""
  · simp [validate_task_form, h1] at h
  by_cases h2 : (py_strip f.title).length > 200
  · simp [validate_task_form, h1, h2] at h
  by_cases h3 : (py_strip f.description).length > 1000
  · simp [validate_task_form, h1, h2, h3] at h
  by_cases h4 : py_strip f.due_date = ""
  · simp only [validate_task_form, if_neg h1, if_neg h2, if_neg h3, if_pos h4] at h
    rw [Except.ok.injEq] at h
    subst h
    refine ⟨rfl, rfl, rfl, fun _ => rfl, ?_⟩
    intro d hd
    rw [h4, strptime_empty] at hd
    cases hd
  · simp only [validate_task_form, if_neg h1, if_neg h2, if_neg h3, if_neg h4] at h
    cases hm : strptime_date_time (py_strip f.due_date) with
    | none =>
      rw [hm] at h
      simp at h
    | some d =>
      rw [hm] at h
      rw [Except.ok.injEq] at h
      subst h
      refine ⟨rfl, rfl, rfl, fun hd => absurd hd h4, ?_⟩
      intro d2 hd2
      rw [Option.some.injEq] at hd2
      rw [hd2]

/-- C9: a valid creation persists, in one atomic step, the task row with
completed false unless the checkbox was submitted, together with exactly
one ownership link tying the fresh task id to the creating user; a
validation failure persists nothing, so neither row can exist without
the other. -/
theorem C9_create_ownership (db : DB) (uid created_ts : Nat) (f : TaskForm) :
    (∀ e, (task_create db uid created_ts f).2 = .validationError e →
      (task_create db uid created_ts f).1 = db) ∧
    (∀ tid, (task_create db uid created_ts f).2 = .created tid →
      ∃ task : Task,
        task.id = tid ∧
        (task_create db uid created_ts f).1.tasks = db.tasks ++ [task] ∧
        (task_create db uid created_ts f).1.owners =
          db.owners ++ [{ id := next_owner_id db, user_id := uid, task_id := tid }] ∧
        (f.completed ≠ some "on" → task.completed = false) ∧
        (f.completed = some "on" → task.completed = true) ∧
        (owners_fk db →
          ∀ o ∈ (task_create db uid created_ts f).1.owners,
            o.task_id = tid → o.user_id = uid)) := by
  cases hv : validate_task_form f with
  | error e0 =>
    constructor
    · intro e he
      simp [task_create, hv]
    · intro tid h
      simp [task_create, hv] at h
  | ok p =>
    have hc : p.completed = (f.completed == some "on") :=
      (validate_task_form_ok hv).2.2.1
    constructor
    · intro e he
      simp [task_create, hv] at he
    · intro tid h
      have htid : tid = next_task_id db := by
        simp [task_create, hv] at h
        omega
      subst htid
      refine ⟨{ id := next_task_id db, title := p.title, description := p.description,
                due_date := p.due_date, completed := p.completed,
                created_at := created_ts }, rfl, ?_, ?_, ?_, ?_, ?_⟩
      · simp [task_create, hv]
      · simp [task_create, hv]
      · intro hne
        show p.completed = false
        rw [hc]
        exact beq_eq_false_iff_ne.mpr hne
      · intro heq
        show p.completed = true
        rw [hc, heq]
        simp
      · intro hfk o ho hot
        have howners : (task_create db uid created_ts f).1.owners =
            db.owners ++ [{ id := next_owner_id db, user_id := uid,
                            task_id := next_task_id db }] := by
          simp [task_create, hv]
        rw [howners] at ho
        rcases List.mem_append.mp ho with ho1 | ho2
        · exfalso
          obtain ⟨t0, ht0, he0⟩ := hfk o ho1
          have hmem : t0.id ∈ db.tasks.map Task.id := List.mem_map_of_mem Task.id ht0
          have hle := mem_le_foldr_max _ _ hmem
          rw [← he0, hot] at hle
          unfold next_task_id at hle
          omega
        · rw [List.mem_singleton] at ho2
          rw [ho2]

/-- Witness for C9 at a concrete creation on the sample store. -/
theorem C9_create_ownership_witness :
    (∀ e, (task_create sample_db 2 9 ⟨"walk dog", "", "", none⟩).2 = .validationError e →
      (task_create sample_db 2 9 ⟨"walk dog", "", "", none⟩).1 = sample_db) ∧
    (∀ tid, (task_create sample_db 2 9 ⟨"walk dog", "", "", none⟩).2 = .created tid →
      ∃ task : Task,
        task.id = tid ∧
        (task_create sample_db 2 9 ⟨"walk dog", "", "", none⟩).1.tasks =
          sample_db.tasks ++ [task] ∧
        (task_create sample_db 2 9 ⟨"walk dog", "", "", none⟩).1.owners =
          sample_db.owners ++ [{ id := next_owner_id sample_db, user_id := 2,
                                 task_id := tid }] ∧
        ((none : Option String) ≠ some "on" → task.completed = false) ∧
        ((none : Option String) = some "on" → task.completed = true) ∧
        (owners_fk sample_db →
          ∀ o ∈ (task_create sample_db 2 9 ⟨"walk dog", "", "", none⟩).1.owners,
            o.task_id = tid → o.user_id = 2)) :=
  C9_create_ownership sample_db 2 9 ⟨"walk dog", "", "", none⟩

/-- C10: a successful edit overwrites all four mutable fields from the
submitted form — the stored task keeps only its id and creation
timestamp, its title is the trimmed submitted title, a blank description
stores the absent value, a blank due-date field stores the absent value,
and an absent completed checkbox stores false — no prior field survives
unless resubmitted. -/
theorem C10_edit_overwrites (db : DB) (uid task_id : Nat) (f : TaskForm) (t : Task)
    (p : ParsedTaskForm)
    (hget : get_user_task db uid task_id = some t)
    (hv : validate_task_form f = .ok p) :
    (task_edit db uid task_id f).2 = .updated ∧
    get_user_task (task_edit db uid task_id f).1 uid task_id =
      some { id := t.id, title := py_strip f.title,
             description := (if py_strip f.description = "" then none
                             else some (py_strip f.description)),
             due_date := p.due_date, completed := (f.completed == some "on"),
             created_at := t.created_at } ∧
    (py_strip f.due_date = "" → p.due_date = none) ∧
    (∀ d, strptime_date_time (py_strip f.due_date) = some d → p.due_date = some d) ∧
    (f.completed = none → (f.completed == some "on") = false) := by
  obtain ⟨hti, hde, hco, hdd0, hdds⟩ := validate_task_form_ok hv
  have hrepl : task_edit db uid task_id f =
      ({ db with tasks := db.tasks.map fun x =>
                    if x.id == task_id
                    then { t with title := p.title, description := p.description,
                                  due_date := p.due_date, completed := p.completed }
                    else x },
       .updated) := by
    simp only [task_edit, hget, hv]
  refine ⟨?_, ?_, hdd0, hdds, ?_⟩
  · rw [hrepl]
  · rw [hrepl]
    have := @get_user_task_replace db uid task_id t
      { t with title := p.title, description := p.description,
               due_date := p.due_date, completed := p.completed } hget rfl
    rw [this]
    rw [hti, hde, hco]
  · intro hnone
    rw [hnone]
    rfl

/-- Witness for C10: editing the sample task with a blank description,
blank due date and absent checkbox clears all three fields. -/
theorem C10_edit_overwrites_witness :
    get_user_task sample_db 1 1 = some sample_task ∧
    validate_task_form ⟨" new title ", "", "", none⟩ =
      .ok ⟨"new title", none, none, false⟩ ∧
    ((task_edit sample_db 1 1 ⟨" new title ", "", "", none⟩).2 = .updated ∧
     get_user_task (task_edit sample_db 1 1 ⟨" new title ", "", "", none⟩).1 1 1 =
       some { id := sample_task.id, title := py_strip " new title ",
              description := (if py_strip "" = "" then none
                              else some (py_strip "")),
              due_date := (none : Option DateTime),
              completed := ((none : Option String) == some "on"),
              created_at := sample_task.created_at } ∧
     (py_strip "" = "" → (none : Option DateTime) = none) ∧
     (∀ d, strptime_date_time (py_strip "") = some d →
        (none : Option DateTime) = some d) ∧
     ((none : Option String) = none → ((none : Option String) == some "on") = false)) :=
  ⟨by decide, rfl,
   C10_edit_overwrites sample_db 1 1 ⟨" new title ", "", "", none⟩ sample_task
     ⟨"new title", none, none, false⟩ (by decide) rfl⟩

end TodoMVC
